import Mathlib

/-!
Verification of the two deep-research CLI scripts
(`gemini_deep_research.py` and `openai_deep_research.py`).

The development shallowly embeds the pieces of the scripts that the
properties are about:

* `slugify` (identical in both scripts): modelled character-by-character
  over `List Char`, with the regex character classes `\w` and `\s` taken
  in their ASCII fragment (Lean's `Char.isAlphanum` / explicit whitespace
  list), and Python's `str.lower` modelled by `Char.toLower`.
* the streaming event loop of `run_deep_research`: the `for` loop is a
  recursion over the list of stream events; `sys.exit(1)` is modelled by
  an early `none` result; the final artifact write is modelled by
  returning the written content.
* the output-path resolution in `main`: `pathlib`'s `/` operator is
  modelled by `pathJoin` (an absolute right operand replaces the base),
  `datetime.strftime("%Y%m%d_%H%M%S")` by `strftimeYmdHMS` over an
  explicit date-time record.
-/

namespace PyStr

/-- ASCII fragment of Python's regex class `\w` (alphanumeric or underscore). -/
def isWordChar (c : Char) : Bool := c.isAlphanum || c == '_'

/-- ASCII fragment of Python's regex class `\s`. -/
def isSpaceChar (c : Char) : Bool :=
  c == ' ' || c == '\t' || c == '\n' || c == '\r' || c.toNat == 11 || c.toNat == 12

/-- The characters kept by `re.sub(r"[^\w\s-]", "", ·)`. -/
def keepChar (c : Char) : Bool := isWordChar c || isSpaceChar c || c == '-'

/-- The characters matched by the class `[\s_]`. -/
def spaceOrUnderscore (c : Char) : Bool := isSpaceChar c || c == '_'

/-- A hyphen, the class stripped by `.strip("-")`. -/
def isHyphen (c : Char) : Bool := c == '-'

/-- `re.sub(r"[\s_]+", "-", ·)`: every maximal run of whitespace/underscore
characters is replaced by a single hyphen.  The boolean argument records
whether the previous character belonged to such a run. -/
def collapseAux (prevRun : Bool) : List Char → List Char
  | [] => []
  | c :: cs =>
    if spaceOrUnderscore c then
      (if prevRun then [] else ['-']) ++ collapseAux true cs
    else
      c :: collapseAux false cs

def collapseRuns (l : List Char) : List Char := collapseAux false l

/-- Remove the maximal suffix of characters satisfying `p`
(the trailing half of Python's `.strip`). -/
def dropTrailingWhile (p : Char → Bool) : List Char → List Char
  | [] => []
  | c :: cs =>
    let r := dropTrailingWhile p cs
    if r.isEmpty && p c then [] else c :: r

/-- Python's `.strip("-")`: hyphens removed from both ends. -/
def stripHyphens (l : List Char) : List Char :=
  dropTrailingWhile isHyphen (l.dropWhile isHyphen)

/-- The character set a slug may draw from: ASCII lowercase letters,
digits, and the hyphen. -/
def isSlugChar (c : Char) : Bool := c.isLower || c.isDigit || c == '-'

end PyStr

namespace PyPath

/-- `pathlib`'s `/` operator on POSIX (for operands without redundant
separators): an absolute right operand (leading `/`) replaces the base path. -/
def pathJoin (base child : String) : String :=
  if child.data.head? = some '/' then child else base ++ "/" ++ child

end PyPath

namespace PyTime

/-- A local date-time as delivered by `datetime.now()`. -/
structure PyDateTime where
  year : Nat
  month : Nat
  day : Nat
  hour : Nat
  minute : Nat
  second : Nat

def pad2 (n : Nat) : String := if n < 10 then "0" ++ toString n else toString n

def pad4 (n : Nat) : String :=
  if n < 10 then "000" ++ toString n
  else if n < 100 then "00" ++ toString n
  else if n < 1000 then "0" ++ toString n
  else toString n

/-- `datetime.strftime("%Y%m%d_%H%M%S")`. -/
def strftimeYmdHMS (t : PyDateTime) : String :=
  pad4 t.year ++ pad2 t.month ++ pad2 t.day ++ "_" ++
    pad2 t.hour ++ pad2 t.minute ++ pad2 t.second

end PyTime

namespace Gemini

/-- `slugify` from `gemini_deep_research.py`:
`slug = re.sub(r"[^\w\s-]", "", text.lower())`;
`slug = re.sub(r"[\s_]+", "-", slug).strip("-")`;
`return slug[:max_len]`. -/
def slugify (text : String) (max_len : Nat := 60) : String :=
  String.mk
    ((PyStr.stripHyphens
        (PyStr.collapseRuns
          ((text.data.map Char.toLower).filter PyStr.keepChar))).take max_len)

/-- The stream events dispatched by the `for chunk in stream` loop,
identified by `chunk.event_type` (and `chunk.delta.type` for
`content.delta` chunks).  `other` covers every event type the `elif`
chain does not mention. -/
inductive Chunk where
  | interactionStart (id : String)
  | contentDelta (ty : String) (text : String)
  | interactionComplete
  | error
  | other (event_type : String)
deriving DecidableEq, Repr

/-- Outcome of one run: the process exit code and the artifact content,
`none` when no file was written. -/
structure RunResult where
  exitCode : Nat
  artifact : Option String
deriving DecidableEq, Repr

/-- The `for chunk in stream` loop of `run_deep_research`, threading the
`report` accumulator.  `none` models `sys.exit(1)` on an `error` event;
`some r` is the accumulator when the stream is exhausted. -/
def consumeStream (report : String) : List Chunk → Option String
  | [] => some report
  | chunk :: rest =>
    match chunk with
    | .interactionStart _ => consumeStream report rest
    | .contentDelta ty text =>
      if ty = "text" then consumeStream (report ++ text) rest
      else consumeStream report rest
    | .interactionComplete => consumeStream report rest
    | .error => none
    | .other _ => consumeStream report rest

/-- `run_deep_research` after the stream is opened: consume the stream,
exit 1 on an error event or an empty report, otherwise write the report. -/
def run_deep_research (stream : List Chunk) : RunResult :=
  match consumeStream "" stream with
  | none => ⟨1, none⟩
  | some report => if report = "" then ⟨1, none⟩ else ⟨0, some report⟩

/-- Whether the stream contains an `error` event anywhere. -/
def hasError : List Chunk → Bool
  | [] => false
  | .error :: _ => true
  | _ :: rest => hasError rest

/-- Left-to-right concatenation of all text-delta fragments of the stream. -/
def reportText : List Chunk → String
  | [] => ""
  | .contentDelta ty text :: rest =>
    (if ty = "text" then text else "") ++ reportText rest
  | _ :: rest => reportText rest

/-- `{timestamp}_{slug}.md`, the auto-generated file name in `main`. -/
def defaultFileName (instruction : String) (now : PyTime.PyDateTime) : String :=
  PyTime.strftimeYmdHMS now ++ "_" ++ slugify instruction ++ ".md"

/-- The output-path resolution of `main`: `OUTPUT_DIR / args.output` when
`args.output` is truthy (present and non-empty), else
`OUTPUT_DIR / f"{timestamp}_{slug}.md"`. -/
def resolveOutputPath (output_dir : String) (args_output : Option String)
    (instruction : String) (now : PyTime.PyDateTime) : String :=
  match args_output with
  | some o =>
    if o = "" then PyPath.pathJoin output_dir (defaultFileName instruction now)
    else PyPath.pathJoin output_dir o
  | none => PyPath.pathJoin output_dir (defaultFileName instruction now)

end Gemini

namespace OpenAI

/-- `slugify` from `openai_deep_research.py` (textually identical to the
Gemini variant). -/
def slugify (text : String) (max_len : Nat := 60) : String :=
  String.mk
    ((PyStr.stripHyphens
        (PyStr.collapseRuns
          ((text.data.map Char.toLower).filter PyStr.keepChar))).take max_len)

/-- The stream events dispatched by the `for event in stream` loop,
identified by `event.type`. -/
inductive Event where
  | responseCreated (id : String)
  | outputItemAdded (item_type : String)
  | outputTextDelta (delta : String)
  | reasoningSummaryTextDelta (delta : String)
  | responseCompleted
  | error (info : String)
  | other (ty : String)
deriving DecidableEq, Repr

/-- Outcome of one run (exit code, artifact content if written). -/
structure RunResult where
  exitCode : Nat
  artifact : Option String
deriving DecidableEq, Repr

/-- The `for event in stream` loop of `run_deep_research`. -/
def consumeStream (report : String) : List Event → Option String
  | [] => some report
  | event :: rest =>
    match event with
    | .responseCreated _ => consumeStream report rest
    | .outputItemAdded _ => consumeStream report rest
    | .outputTextDelta delta => consumeStream (report ++ delta) rest
    | .reasoningSummaryTextDelta _ => consumeStream report rest
    | .responseCompleted => consumeStream report rest
    | .error _ => none
    | .other _ => consumeStream report rest

/-- `run_deep_research` after the stream is opened. -/
def run_deep_research (stream : List Event) : RunResult :=
  match consumeStream "" stream with
  | none => ⟨1, none⟩
  | some report => if report = "" then ⟨1, none⟩ else ⟨0, some report⟩

/-- Whether the stream contains an `error` event anywhere. -/
def hasError : List Event → Bool
  | [] => false
  | .error _ :: _ => true
  | _ :: rest => hasError rest

/-- Left-to-right concatenation of all text-delta fragments of the stream. -/
def reportText : List Event → String
  | [] => ""
  | .outputTextDelta delta :: rest => delta ++ reportText rest
  | _ :: rest => reportText rest

/-- `{timestamp}_{slug}.md`, the auto-generated file name in `main`. -/
def defaultFileName (instruction : String) (now : PyTime.PyDateTime) : String :=
  PyTime.strftimeYmdHMS now ++ "_" ++ slugify instruction ++ ".md"

/-- The output-path resolution of `main`. -/
def resolveOutputPath (output_dir : String) (args_output : Option String)
    (instruction : String) (now : PyTime.PyDateTime) : String :=
  match args_output with
  | some o =>
    if o = "" then PyPath.pathJoin output_dir (defaultFileName instruction now)
    else PyPath.pathJoin output_dir o
  | none => PyPath.pathJoin output_dir (defaultFileName instruction now)

end OpenAI

namespace Inputs

/-- 59 `a`s followed by `" b"`: slugifies to 59 `a`s followed by a hyphen,
because truncation to 60 characters happens after `.strip("-")`. -/
def longTail : String := String.mk (List.replicate 59 'a' ++ [' ', 'b'])

/-- The Gemini-side event stream delivering the fragments
`["Hello, ", "world", "!"]` and then completing. -/
def helloGemini : List Gemini.Chunk :=
  [Gemini.Chunk.contentDelta "text" "Hello, ",
   Gemini.Chunk.contentDelta "text" "world",
   Gemini.Chunk.contentDelta "text" "!",
   Gemini.Chunk.interactionComplete]

/-- The OpenAI-side event stream delivering the fragments
`["Hello, ", "world", "!"]` and then completing. -/
def helloOpenAI : List OpenAI.Event :=
  [OpenAI.Event.outputTextDelta "Hello, ",
   OpenAI.Event.outputTextDelta "world",
   OpenAI.Event.outputTextDelta "!",
   OpenAI.Event.responseCompleted]

end Inputs

namespace PyStr

theorem char_eq_iff_toNat (c d : Char) : c = d ↔ c.toNat = d.toNat := by
  constructor
  · intro h
    rw [h]
  · intro h
    rw [← Char.ofNat_toNat c, ← Char.ofNat_toNat d, h]

theorem toNat_space : (' ' : Char).toNat = 32 := rfl

theorem toNat_tab : ('\t' : Char).toNat = 9 := rfl

theorem toNat_lf : ('\n' : Char).toNat = 10 := rfl

theorem toNat_cr : ('\r' : Char).toNat = 13 := rfl

theorem toNat_hyphen : ('-' : Char).toNat = 45 := rfl

theorem toNat_underscore : ('_' : Char).toNat = 95 := rfl

theorem isUpper_iff (c : Char) : c.isUpper = true ↔ 65 ≤ c.toNat ∧ c.toNat ≤ 90 := by
  simp [Char.isUpper, UInt32.le_def, BitVec.le_def, Char.toNat, UInt32.toNat]

theorem isLower_iff (c : Char) : c.isLower = true ↔ 97 ≤ c.toNat ∧ c.toNat ≤ 122 := by
  simp [Char.isLower, UInt32.le_def, BitVec.le_def, Char.toNat, UInt32.toNat]

theorem isDigit_iff (c : Char) : c.isDigit = true ↔ 48 ≤ c.toNat ∧ c.toNat ≤ 57 := by
  simp [Char.isDigit, UInt32.le_def, BitVec.le_def, Char.toNat, UInt32.toNat]

theorem isSpaceChar_iff (c : Char) :
    isSpaceChar c = true ↔
      c.toNat = 32 ∨ c.toNat = 9 ∨ c.toNat = 10 ∨ c.toNat = 13 ∨
        c.toNat = 11 ∨ c.toNat = 12 := by
  simp only [isSpaceChar, Bool.or_eq_true, beq_iff_eq, char_eq_iff_toNat,
    toNat_space, toNat_tab, toNat_lf, toNat_cr]
  omega

theorem isWordChar_iff (c : Char) :
    isWordChar c = true ↔
      (65 ≤ c.toNat ∧ c.toNat ≤ 90) ∨ (97 ≤ c.toNat ∧ c.toNat ≤ 122) ∨
        (48 ≤ c.toNat ∧ c.toNat ≤ 57) ∨ c.toNat = 95 := by
  simp only [isWordChar, Char.isAlphanum, Char.isAlpha, Bool.or_eq_true,
    isUpper_iff, isLower_iff, isDigit_iff, beq_iff_eq, char_eq_iff_toNat,
    toNat_underscore]
  omega

theorem keepChar_iff (c : Char) :
    keepChar c = true ↔
      (65 ≤ c.toNat ∧ c.toNat ≤ 90) ∨ (97 ≤ c.toNat ∧ c.toNat ≤ 122) ∨
        (48 ≤ c.toNat ∧ c.toNat ≤ 57) ∨ c.toNat = 95 ∨ c.toNat = 32 ∨
        c.toNat = 9 ∨ c.toNat = 10 ∨ c.toNat = 13 ∨ c.toNat = 11 ∨
        c.toNat = 12 ∨ c.toNat = 45 := by
  simp only [keepChar, Bool.or_eq_true, isWordChar_iff, isSpaceChar_iff,
    beq_iff_eq, char_eq_iff_toNat, toNat_hyphen]
  omega

theorem spaceOrUnderscore_iff (c : Char) :
    spaceOrUnderscore c = true ↔
      c.toNat = 32 ∨ c.toNat = 9 ∨ c.toNat = 10 ∨ c.toNat = 13 ∨
        c.toNat = 11 ∨ c.toNat = 12 ∨ c.toNat = 95 := by
  simp only [spaceOrUnderscore, Bool.or_eq_true, isSpaceChar_iff,
    beq_iff_eq, char_eq_iff_toNat, toNat_underscore]
  omega

theorem isSlugChar_iff (c : Char) :
    isSlugChar c = true ↔
      (97 ≤ c.toNat ∧ c.toNat ≤ 122) ∨ (48 ≤ c.toNat ∧ c.toNat ≤ 57) ∨
        c.toNat = 45 := by
  simp only [isSlugChar, Bool.or_eq_true, isLower_iff, isDigit_iff,
    beq_iff_eq, char_eq_iff_toNat, toNat_hyphen]
  omega

theorem isHyphen_iff (c : Char) : isHyphen c = true ↔ c.toNat = 45 := by
  simp only [isHyphen, beq_iff_eq, char_eq_iff_toNat, toNat_hyphen]

theorem toNat_ofNat_valid (n : Nat) (h : n.isValidChar) : (Char.ofNat n).toNat = n := by
  simp [Char.ofNat, dif_pos h, Char.ofNatAux, Char.toNat, UInt32.toNat]

theorem toLower_not_upper (c : Char) : (Char.toLower c).isUpper = false := by
  show (if c.toNat ≥ 65 ∧ c.toNat ≤ 90 then Char.ofNat (c.toNat + 32) else c).isUpper = false
  by_cases h : c.toNat ≥ 65 ∧ c.toNat ≤ 90
  · rw [if_pos h, Bool.eq_false_iff]
    intro hu
    rw [isUpper_iff, toNat_ofNat_valid _ (Or.inl (by omega))] at hu
    omega
  · rw [if_neg h, Bool.eq_false_iff]
    intro hu
    rw [isUpper_iff] at hu
    exact h ⟨hu.1, hu.2⟩

theorem toLower_eq_self (c : Char) (h : c.isUpper = false) : Char.toLower c = c := by
  show (if c.toNat ≥ 65 ∧ c.toNat ≤ 90 then Char.ofNat (c.toNat + 32) else c) = c
  rw [Bool.eq_false_iff] at h
  rw [if_neg]
  intro hc
  exact h (isUpper_iff c |>.mpr ⟨hc.1, hc.2⟩)

theorem slug_keep (c : Char) (h : isSlugChar c = true) : keepChar c = true := by
  rw [keepChar_iff]
  rw [isSlugChar_iff] at h
  omega

theorem slug_not_su (c : Char) (h : isSlugChar c = true) :
    spaceOrUnderscore c = false := by
  rw [Bool.eq_false_iff]
  intro hsu
  rw [spaceOrUnderscore_iff] at hsu
  rw [isSlugChar_iff] at h
  omega

theorem slug_not_upper (c : Char) (h : isSlugChar c = true) : c.isUpper = false := by
  rw [Bool.eq_false_iff]
  intro hu
  rw [isUpper_iff] at hu
  rw [isSlugChar_iff] at h
  omega

theorem slug_not_hyphen_of_ne (c : Char) (h : c ≠ '-') : isHyphen c = false := by
  rw [Bool.eq_false_iff]
  intro hc
  rw [isHyphen_iff] at hc
  apply h
  rw [← Char.ofNat_toNat c, hc]

theorem keep_and_clean_isSlug (c : Char) (hk : keepChar c = true)
    (hsu : spaceOrUnderscore c = false) (hu : c.isUpper = false) :
    isSlugChar c = true := by
  rw [Bool.eq_false_iff] at hsu hu
  rw [isSlugChar_iff]
  rw [keepChar_iff] at hk
  have h1 : ¬(c.toNat = 32 ∨ c.toNat = 9 ∨ c.toNat = 10 ∨ c.toNat = 13 ∨
      c.toNat = 11 ∨ c.toNat = 12 ∨ c.toNat = 95) := fun h =>
    hsu (spaceOrUnderscore_iff c |>.mpr h)
  have h2 : ¬(65 ≤ c.toNat ∧ c.toNat ≤ 90) := fun h =>
    hu (isUpper_iff c |>.mpr h)
  omega

end PyStr

namespace PyStr

theorem mem_collapseAux {c : Char} :
    ∀ (b : Bool) (l : List Char), c ∈ collapseAux b l →
      c = '-' ∨ (c ∈ l ∧ spaceOrUnderscore c = false) := by
  intro b l
  induction l generalizing b with
  | nil => intro h; simp [collapseAux] at h
  | cons d cs ih =>
    intro h
    rw [collapseAux] at h
    by_cases hd : spaceOrUnderscore d = true
    · rw [if_pos hd, List.mem_append] at h
      rcases h with h | h
      · left
        rcases b with _ | _
        · simpa using h
        · simp at h
      · rcases ih true h with h' | ⟨hm, hs⟩
        · exact Or.inl h'
        · exact Or.inr ⟨List.mem_cons_of_mem d hm, hs⟩
    · rw [if_neg hd, List.mem_cons] at h
      rcases h with h | h
      · subst h
        exact Or.inr ⟨List.mem_cons_self c cs, Bool.eq_false_iff.mpr hd⟩
      · rcases ih false h with h' | ⟨hm, hs⟩
        · exact Or.inl h'
        · exact Or.inr ⟨List.mem_cons_of_mem d hm, hs⟩

theorem collapseAux_eq_self (l : List Char)
    (h : ∀ c ∈ l, spaceOrUnderscore c = false) : collapseAux false l = l := by
  induction l with
  | nil => rfl
  | cons d cs ih =>
    rw [collapseAux, if_neg (by simp [h d (List.mem_cons_self d cs)]),
      ih (fun c hc => h c (List.mem_cons_of_mem d hc))]

theorem mem_dropTrailingWhile {p : Char → Bool} {c : Char} :
    ∀ l : List Char, c ∈ dropTrailingWhile p l → c ∈ l := by
  intro l
  induction l with
  | nil => intro h; simp [dropTrailingWhile] at h
  | cons d cs ih =>
    intro h
    rw [dropTrailingWhile] at h
    by_cases hc : (dropTrailingWhile p cs).isEmpty && p d
    · simp [hc] at h
    · rw [if_neg hc, List.mem_cons] at h
      rcases h with h | h
      · exact h ▸ List.mem_cons_self d cs
      · exact List.mem_cons_of_mem d (ih h)

theorem dropTrailingWhile_head? (p : Char → Bool) (l : List Char) :
    dropTrailingWhile p l = [] ∨ (dropTrailingWhile p l).head? = l.head? := by
  cases l with
  | nil => exact Or.inl rfl
  | cons d cs =>
    rw [dropTrailingWhile]
    by_cases hc : (dropTrailingWhile p cs).isEmpty && p d
    · exact Or.inl (by rw [if_pos hc])
    · exact Or.inr (by rw [if_neg hc]; rfl)

theorem dropTrailingWhile_length_le (p : Char → Bool) :
    ∀ l : List Char, (dropTrailingWhile p l).length ≤ l.length := by
  intro l
  induction l with
  | nil => exact Nat.le_refl 0
  | cons d cs ih =>
    rw [dropTrailingWhile]
    by_cases hc : (dropTrailingWhile p cs).isEmpty && p d
    · rw [if_pos hc]
      exact Nat.zero_le _
    · rw [if_neg hc]
      exact Nat.succ_le_succ ih

theorem dropTrailingWhile_eq_self (p : Char → Bool) :
    ∀ l : List Char, (∀ c, l.getLast? = some c → p c = false) →
      dropTrailingWhile p l = l := by
  intro l
  induction l with
  | nil => intro _; rfl
  | cons d cs ih =>
    intro h
    cases cs with
    | nil =>
      have hd : p d = false := h d rfl
      rw [dropTrailingWhile, dropTrailingWhile, if_neg (by simp [hd])]
    | cons e es =>
      have hcs : dropTrailingWhile p (e :: es) = e :: es :=
        ih (fun c hc => h c (by rw [List.getLast?_cons_cons]; exact hc))
      rw [dropTrailingWhile, hcs, if_neg (by simp)]

theorem dropWhile_eq_self (p : Char → Bool) (l : List Char)
    (h : ∀ c, l.head? = some c → p c = false) : l.dropWhile p = l := by
  cases l with
  | nil => rfl
  | cons d cs =>
    rw [List.dropWhile_cons, if_neg (by simp [h d rfl])]

theorem head?_dropWhile (p : Char → Bool) :
    ∀ (l : List Char) (c : Char), (l.dropWhile p).head? = some c → p c = false := by
  intro l
  induction l with
  | nil => intro c h; simp at h
  | cons d cs ih =>
    intro c h
    rw [List.dropWhile_cons] at h
    by_cases hd : p d = true
    · exact ih c (by rwa [if_pos hd] at h)
    · rw [if_neg hd] at h
      cases h
      exact Bool.eq_false_iff.mpr hd

theorem head?_take {l : List Char} {n : Nat} {c : Char}
    (h : (l.take n).head? = some c) : l.head? = some c := by
  cases l with
  | nil => simp at h
  | cons d cs =>
    cases n with
    | zero => simp at h
    | succ m => simpa using h

theorem map_eq_self {f : Char → Char} {l : List Char}
    (h : ∀ c ∈ l, f c = c) : l.map f = l := by
  induction l with
  | nil => rfl
  | cons d cs ih =>
    rw [List.map_cons, h d (List.mem_cons_self d cs),
      ih (fun c hc => h c (List.mem_cons_of_mem d hc))]

end PyStr

theorem gemini_slug_chars (s : String) (n : Nat) :
    ∀ c ∈ (Gemini.slugify s n).data, PyStr.isSlugChar c = true := by
  intro c hc
  have hc1 : c ∈ PyStr.stripHyphens
      (PyStr.collapseRuns ((s.data.map Char.toLower).filter PyStr.keepChar)) :=
    (List.take_sublist n _).subset hc
  have hc2 : c ∈ (PyStr.collapseRuns
      ((s.data.map Char.toLower).filter PyStr.keepChar)).dropWhile PyStr.isHyphen :=
    PyStr.mem_dropTrailingWhile _ hc1
  have hc3 : c ∈ PyStr.collapseRuns
      ((s.data.map Char.toLower).filter PyStr.keepChar) :=
    (List.dropWhile_sublist PyStr.isHyphen).subset hc2
  rcases PyStr.mem_collapseAux false _ hc3 with h | ⟨hm, hsu⟩
  · subst h
    decide
  · have hf := List.mem_filter.mp hm
    obtain ⟨d, _, rfl⟩ := List.mem_map.mp hf.1
    exact PyStr.keep_and_clean_isSlug _ hf.2 hsu (PyStr.toLower_not_upper d)

theorem gemini_slug_head (s : String) (n : Nat) :
    ∀ c, (Gemini.slugify s n).data.head? = some c → PyStr.isHyphen c = false := by
  intro c h
  have h1 : (PyStr.dropTrailingWhile PyStr.isHyphen
      ((PyStr.collapseRuns
        ((s.data.map Char.toLower).filter PyStr.keepChar)).dropWhile
          PyStr.isHyphen)).head? = some c :=
    PyStr.head?_take h
  rcases PyStr.dropTrailingWhile_head? PyStr.isHyphen
      ((PyStr.collapseRuns
        ((s.data.map Char.toLower).filter PyStr.keepChar)).dropWhile
          PyStr.isHyphen) with he | hh
  · rw [he] at h1
    cases h1
  · rw [hh] at h1
    exact PyStr.head?_dropWhile PyStr.isHyphen _ c h1

theorem gemini_slug_len (s : String) (n : Nat) :
    (Gemini.slugify s n).data.length ≤ n := by
  show ((PyStr.stripHyphens
      (PyStr.collapseRuns
        ((s.data.map Char.toLower).filter PyStr.keepChar))).take n).length ≤ n
  rw [List.length_take]
  exact Nat.min_le_left _ _

theorem slugify_agree (s : String) (n : Nat) :
    OpenAI.slugify s n = Gemini.slugify s n := rfl

theorem gemini_slug_idem (s : String)
    (h : (Gemini.slugify s).data.getLast? ≠ some '-') :
    Gemini.slugify (Gemini.slugify s) = Gemini.slugify s := by
  have hchars := gemini_slug_chars s 60
  have h1 : (Gemini.slugify s).data.map Char.toLower = (Gemini.slugify s).data :=
    PyStr.map_eq_self (fun c hc =>
      PyStr.toLower_eq_self c (PyStr.slug_not_upper c (hchars c hc)))
  have h2 : (Gemini.slugify s).data.filter PyStr.keepChar = (Gemini.slugify s).data :=
    List.filter_eq_self.mpr (fun c hc => PyStr.slug_keep c (hchars c hc))
  have h3 : PyStr.collapseRuns (Gemini.slugify s).data = (Gemini.slugify s).data :=
    PyStr.collapseAux_eq_self _ (fun c hc => PyStr.slug_not_su c (hchars c hc))
  have h4 : (Gemini.slugify s).data.dropWhile PyStr.isHyphen
      = (Gemini.slugify s).data :=
    PyStr.dropWhile_eq_self _ _ (fun c hc => gemini_slug_head s 60 c hc)
  have h5 : PyStr.dropTrailingWhile PyStr.isHyphen (Gemini.slugify s).data
      = (Gemini.slugify s).data :=
    PyStr.dropTrailingWhile_eq_self _ _ (fun c hc =>
      PyStr.slug_not_hyphen_of_ne c (fun hcc => h (hcc ▸ hc)))
  have h6 : (Gemini.slugify s).data.take 60 = (Gemini.slugify s).data :=
    List.take_of_length_le (gemini_slug_len s 60)
  show String.mk
      ((PyStr.stripHyphens
        (PyStr.collapseRuns
          (((Gemini.slugify s).data.map Char.toLower).filter
            PyStr.keepChar))).take 60) = Gemini.slugify s
  rw [h1, h2, h3, PyStr.stripHyphens, h4, h5, h6]

namespace Gemini

theorem consume_no_error_gemini :
    ∀ (l : List Chunk) (r : String), hasError l = false →
      consumeStream r l = some (r ++ reportText l) := by
  intro l
  induction l with
  | nil =>
    intro r _
    rw [show reportText [] = "" from rfl, String.append_empty]
    rfl
  | cons c rest ih =>
    intro r h
    cases c with
    | interactionStart id =>
      rw [show consumeStream r (Chunk.interactionStart id :: rest)
            = consumeStream r rest from rfl,
          show reportText (Chunk.interactionStart id :: rest)
            = reportText rest from rfl]
      exact ih r h
    | contentDelta ty text =>
      rw [show consumeStream r (Chunk.contentDelta ty text :: rest)
            = (if ty = "text" then consumeStream (r ++ text) rest
               else consumeStream r rest) from rfl,
          show reportText (Chunk.contentDelta ty text :: rest)
            = (if ty = "text" then text else "") ++ reportText rest from rfl]
      by_cases hty : ty = "text"
      · rw [if_pos hty, if_pos hty, ih (r ++ text) h, String.append_assoc]
      · rw [if_neg hty, if_neg hty, ih r h, String.empty_append]
    | interactionComplete =>
      rw [show consumeStream r (Chunk.interactionComplete :: rest)
            = consumeStream r rest from rfl,
          show reportText (Chunk.interactionComplete :: rest)
            = reportText rest from rfl]
      exact ih r h
    | error => cases h
    | other ty =>
      rw [show consumeStream r (Chunk.other ty :: rest)
            = consumeStream r rest from rfl,
          show reportText (Chunk.other ty :: rest)
            = reportText rest from rfl]
      exact ih r h

theorem consume_error_gemini :
    ∀ (l : List Chunk) (r : String), hasError l = true →
      consumeStream r l = none := by
  intro l
  induction l with
  | nil => intro r h; cases h
  | cons c rest ih =>
    intro r h
    cases c with
    | interactionStart id => exact ih r h
    | contentDelta ty text =>
      rw [show consumeStream r (Chunk.contentDelta ty text :: rest)
            = (if ty = "text" then consumeStream (r ++ text) rest
               else consumeStream r rest) from rfl]
      by_cases hty : ty = "text"
      · rw [if_pos hty]; exact ih (r ++ text) h
      · rw [if_neg hty]; exact ih r h
    | interactionComplete => exact ih r h
    | error => rfl
    | other ty => exact ih r h

theorem run_of_error_gemini (l : List Chunk) (h : hasError l = true) :
    run_deep_research l = ⟨1, none⟩ := by
  rw [run_deep_research, consume_error_gemini l "" h]

theorem run_of_no_error_gemini (l : List Chunk) (h : hasError l = false) :
    run_deep_research l =
      (if reportText l = "" then ⟨1, none⟩ else ⟨0, some (reportText l)⟩) := by
  rw [run_deep_research, consume_no_error_gemini l "" h, String.empty_append]

end Gemini

namespace OpenAI

theorem consume_no_error_openai :
    ∀ (l : List Event) (r : String), hasError l = false →
      consumeStream r l = some (r ++ reportText l) := by
  intro l
  induction l with
  | nil =>
    intro r _
    rw [show reportText [] = "" from rfl, String.append_empty]
    rfl
  | cons c rest ih =>
    intro r h
    cases c with
    | responseCreated id =>
      rw [show consumeStream r (Event.responseCreated id :: rest)
            = consumeStream r rest from rfl,
          show reportText (Event.responseCreated id :: rest)
            = reportText rest from rfl]
      exact ih r h
    | outputItemAdded it =>
      rw [show consumeStream r (Event.outputItemAdded it :: rest)
            = consumeStream r rest from rfl,
          show reportText (Event.outputItemAdded it :: rest)
            = reportText rest from rfl]
      exact ih r h
    | outputTextDelta delta =>
      rw [show consumeStream r (Event.outputTextDelta delta :: rest)
            = consumeStream (r ++ delta) rest from rfl,
          show reportText (Event.outputTextDelta delta :: rest)
            = delta ++ reportText rest from rfl,
          ih (r ++ delta) h, String.append_assoc]
    | reasoningSummaryTextDelta delta =>
      rw [show consumeStream r (Event.reasoningSummaryTextDelta delta :: rest)
            = consumeStream r rest from rfl,
          show reportText (Event.reasoningSummaryTextDelta delta :: rest)
            = reportText rest from rfl]
      exact ih r h
    | responseCompleted =>
      rw [show consumeStream r (Event.responseCompleted :: rest)
            = consumeStream r rest from rfl,
          show reportText (Event.responseCompleted :: rest)
            = reportText rest from rfl]
      exact ih r h
    | error info => cases h
    | other ty =>
      rw [show consumeStream r (Event.other ty :: rest)
            = consumeStream r rest from rfl,
          show reportText (Event.other ty :: rest)
            = reportText rest from rfl]
      exact ih r h

theorem consume_error_openai :
    ∀ (l : List Event) (r : String), hasError l = true →
      consumeStream r l = none := by
  intro l
  induction l with
  | nil => intro r h; cases h
  | cons c rest ih =>
    intro r h
    cases c with
    | responseCreated id => exact ih r h
    | outputItemAdded it => exact ih r h
    | outputTextDelta delta => exact ih (r ++ delta) h
    | reasoningSummaryTextDelta delta => exact ih r h
    | responseCompleted => exact ih r h
    | error info => rfl
    | other ty => exact ih r h

theorem run_of_error_openai (l : List Event) (h : hasError l = true) :
    run_deep_research l = ⟨1, none⟩ := by
  rw [run_deep_research, consume_error_openai l "" h]

theorem run_of_no_error_openai (l : List Event) (h : hasError l = false) :
    run_deep_research l =
      (if reportText l = "" then ⟨1, none⟩ else ⟨0, some (reportText l)⟩) := by
  rw [run_deep_research, consume_no_error_openai l "" h, String.empty_append]

end OpenAI

/-- C1 counterexample: a stream that delivers one text fragment and then
ends without any `completed` event still gets its artifact written, in both
scripts — refuting the claim that no artifact is written when the stream
ends without a `completed` event. -/
theorem artifact_without_completed :
    Gemini.run_deep_research [Gemini.Chunk.contentDelta "text" "hi"]
      = ⟨0, some "hi"⟩ ∧
    OpenAI.run_deep_research [OpenAI.Event.outputTextDelta "hi"]
      = ⟨0, some "hi"⟩ := by
  constructor <;> decide

/-- C1 (amended): the artifact is written iff the stream contains no
`error` event and the accumulated text (the ordered concatenation of the
text-delta fragments) is non-empty at stream end; reaching a `completed`
event is not required by either script. -/
theorem artifact_written_iff :
    (∀ l : List Gemini.Chunk,
      (Gemini.run_deep_research l).artifact ≠ none ↔
        Gemini.hasError l = false ∧ Gemini.reportText l ≠ "") ∧
    (∀ l : List OpenAI.Event,
      (OpenAI.run_deep_research l).artifact ≠ none ↔
        OpenAI.hasError l = false ∧ OpenAI.reportText l ≠ "") := by
  constructor
  · intro l
    constructor
    · intro h
      cases he : Gemini.hasError l with
      | true =>
        rw [Gemini.run_of_error_gemini l he] at h
        exact absurd rfl h
      | false =>
        refine ⟨rfl, fun hr => ?_⟩
        rw [Gemini.run_of_no_error_gemini l he, if_pos hr] at h
        exact absurd rfl h
    · rintro ⟨he, hr⟩
      rw [Gemini.run_of_no_error_gemini l he, if_neg hr]
      simp
  · intro l
    constructor
    · intro h
      cases he : OpenAI.hasError l with
      | true =>
        rw [OpenAI.run_of_error_openai l he] at h
        exact absurd rfl h
      | false =>
        refine ⟨rfl, fun hr => ?_⟩
        rw [OpenAI.run_of_no_error_openai l he, if_pos hr] at h
        exact absurd rfl h
    · rintro ⟨he, hr⟩
      rw [OpenAI.run_of_no_error_openai l he, if_neg hr]
      simp

/-- C1 witness: the amended criterion applied at a concrete stream. -/
theorem artifact_written_iff_witness :
    (Gemini.run_deep_research [Gemini.Chunk.contentDelta "text" "hi"]).artifact
      ≠ none ∧
    (OpenAI.run_deep_research [OpenAI.Event.outputTextDelta "hi"]).artifact
      ≠ none :=
  ⟨(artifact_written_iff.1 _).mpr (by decide),
   (artifact_written_iff.2 _).mpr (by decide)⟩

/-- C2 counterexample: a `text_delta` arriving after the `completed` event
is still appended to the accumulator and ends up in the written artifact,
in both scripts — the reducer does not stop consuming at `completed`. -/
theorem text_delta_after_completed_appended :
    Gemini.consumeStream ""
        [Gemini.Chunk.interactionComplete, Gemini.Chunk.contentDelta "text" "x"]
      = some "x" ∧
    Gemini.run_deep_research
        [Gemini.Chunk.interactionComplete, Gemini.Chunk.contentDelta "text" "x"]
      = ⟨0, some "x"⟩ ∧
    OpenAI.consumeStream ""
        [OpenAI.Event.responseCompleted, OpenAI.Event.outputTextDelta "x"]
      = some "x" ∧
    OpenAI.run_deep_research
        [OpenAI.Event.responseCompleted, OpenAI.Event.outputTextDelta "x"]
      = ⟨0, some "x"⟩ := by
  refine ⟨?_, ?_, ?_, ?_⟩ <;> decide

/-- C2 (amended): the `completed` event only prints a banner: the loop body
leaves the accumulator unchanged and the loop keeps consuming the
remaining events, so events after `completed` are processed exactly as if
`completed` had not occurred. -/
theorem completed_is_transparent :
    (∀ (r : String) (rest : List Gemini.Chunk),
      Gemini.consumeStream r (Gemini.Chunk.interactionComplete :: rest)
        = Gemini.consumeStream r rest) ∧
    (∀ (r : String) (rest : List OpenAI.Event),
      OpenAI.consumeStream r (OpenAI.Event.responseCompleted :: rest)
        = OpenAI.consumeStream r rest) :=
  ⟨fun _ _ => rfl, fun _ _ => rfl⟩

/-- C3: a stream containing an `error` event at any position makes the run
exit with code 1 and write no artifact, whatever text was accumulated
before the error, in both scripts. -/
theorem error_event_aborts_run :
    (∀ l : List Gemini.Chunk, Gemini.hasError l = true →
      Gemini.run_deep_research l = ⟨1, none⟩) ∧
    (∀ l : List OpenAI.Event, OpenAI.hasError l = true →
      OpenAI.run_deep_research l = ⟨1, none⟩) :=
  ⟨Gemini.run_of_error_gemini, OpenAI.run_of_error_openai⟩

/-- C3 witness: an error after accumulated text, at a concrete stream. -/
theorem error_event_aborts_run_witness :
    Gemini.run_deep_research
        [Gemini.Chunk.contentDelta "text" "some text", Gemini.Chunk.error]
      = ⟨1, none⟩ ∧
    OpenAI.run_deep_research
        [OpenAI.Event.outputTextDelta "some text", OpenAI.Event.error "boom"]
      = ⟨1, none⟩ :=
  ⟨error_event_aborts_run.1 _ (by decide),
   error_event_aborts_run.2 _ (by decide)⟩

/-- C4: a stream whose last event is `completed` and whose text-delta
fragments concatenate to the empty string makes the run exit with code 1
and write no artifact, in both scripts. -/
theorem completed_with_empty_report_fails :
    (∀ l : List Gemini.Chunk,
      l.getLast? = some Gemini.Chunk.interactionComplete →
      Gemini.reportText l = "" →
      Gemini.run_deep_research l = ⟨1, none⟩) ∧
    (∀ l : List OpenAI.Event,
      l.getLast? = some OpenAI.Event.responseCompleted →
      OpenAI.reportText l = "" →
      OpenAI.run_deep_research l = ⟨1, none⟩) := by
  constructor
  · intro l _ hr
    cases he : Gemini.hasError l with
    | true => exact Gemini.run_of_error_gemini l he
    | false => rw [Gemini.run_of_no_error_gemini l he, if_pos hr]
  · intro l _ hr
    cases he : OpenAI.hasError l with
    | true => exact OpenAI.run_of_error_openai l he
    | false => rw [OpenAI.run_of_no_error_openai l he, if_pos hr]

/-- C4 witness: the empty-report failure at a concrete stream. -/
theorem completed_with_empty_report_fails_witness :
    Gemini.run_deep_research [Gemini.Chunk.interactionComplete] = ⟨1, none⟩ ∧
    OpenAI.run_deep_research [OpenAI.Event.responseCompleted] = ⟨1, none⟩ :=
  ⟨completed_with_empty_report_fails.1 _ (by decide) (by decide),
   completed_with_empty_report_fails.2 _ (by decide) (by decide)⟩

/-- C7: on any error-free stream, the final accumulator is exactly the
left-to-right concatenation of the text-delta fragments, in order, with
nothing reordered, deduplicated or dropped, in both scripts. -/
theorem report_is_ordered_concat :
    (∀ l : List Gemini.Chunk, Gemini.hasError l = false →
      Gemini.consumeStream "" l = some (Gemini.reportText l)) ∧
    (∀ l : List OpenAI.Event, OpenAI.hasError l = false →
      OpenAI.consumeStream "" l = some (OpenAI.reportText l)) := by
  constructor
  · intro l h
    rw [Gemini.consume_no_error_gemini l "" h, String.empty_append]
  · intro l h
    rw [OpenAI.consume_no_error_openai l "" h, String.empty_append]

/-- C7 witness: the fragments `["Hello, ", "world", "!"]` accumulate to
exactly `"Hello, world!"` in both scripts. -/
theorem report_is_ordered_concat_witness :
    Gemini.consumeStream "" Inputs.helloGemini = some "Hello, world!" ∧
    OpenAI.consumeStream "" Inputs.helloOpenAI = some "Hello, world!" := by
  constructor
  · rw [report_is_ordered_concat.1 Inputs.helloGemini (by decide)]
    decide
  · rw [report_is_ordered_concat.2 Inputs.helloOpenAI (by decide)]
    decide

set_option maxRecDepth 8000 in
/-- C5 counterexample: for 59 `a`s followed by `" b"`, the slug is 59 `a`s
followed by a hyphen — a trailing hyphen, because truncation to 60
characters happens after `.strip("-")` — refuting the no-trailing-hyphen
part of the claim, in both scripts. -/
theorem slug_trailing_hyphen :
    (Gemini.slugify Inputs.longTail).data.getLast? = some '-' ∧
    (OpenAI.slugify Inputs.longTail).data.getLast? = some '-' := by
  constructor <;> decide

/-- C5 (amended): every slug consists solely of ASCII lowercase letters,
digits and hyphens, has no leading hyphen, and has length at most 60; a
trailing hyphen is possible (when truncation cuts right after one), in
both scripts. -/
theorem slug_charset_and_length :
    (∀ s : String,
      (∀ c ∈ (Gemini.slugify s).data, PyStr.isSlugChar c = true) ∧
      (∀ c, (Gemini.slugify s).data.head? = some c → c ≠ '-') ∧
      (Gemini.slugify s).length ≤ 60) ∧
    (∀ s : String,
      (∀ c ∈ (OpenAI.slugify s).data, PyStr.isSlugChar c = true) ∧
      (∀ c, (OpenAI.slugify s).data.head? = some c → c ≠ '-') ∧
      (OpenAI.slugify s).length ≤ 60) := by
  have head_ne : ∀ (s : String) (c : Char),
      (Gemini.slugify s).data.head? = some c → c ≠ '-' := by
    intro s c hc hcc
    have h := gemini_slug_head s 60 c hc
    subst hcc
    simp [PyStr.isHyphen] at h
  constructor
  · intro s
    exact ⟨gemini_slug_chars s 60, head_ne s, gemini_slug_len s 60⟩
  · intro s
    rw [show OpenAI.slugify s = Gemini.slugify s from slugify_agree s 60]
    exact ⟨gemini_slug_chars s 60, head_ne s, gemini_slug_len s 60⟩

/-- C5 witness: the amended statement applied at a concrete instruction,
whose slug is `"hello-world"`. -/
theorem slug_charset_and_length_witness :
    PyStr.isSlugChar 'h' = true ∧ 'h' ≠ '-' ∧
      (Gemini.slugify "Hello, World!").length ≤ 60 ∧
      (OpenAI.slugify "Hello, World!").length ≤ 60 :=
  ⟨(slug_charset_and_length.1 "Hello, World!").1 'h' (by decide),
   (slug_charset_and_length.1 "Hello, World!").2.1 'h' (by decide),
   (slug_charset_and_length.1 "Hello, World!").2.2,
   (slug_charset_and_length.2 "Hello, World!").2.2⟩

set_option maxRecDepth 8000 in
/-- C6 counterexample: for 59 `a`s followed by `" b"`, the slug ends in a
hyphen, which a second application of `slugify` strips — so `slugify` is
not idempotent on that input, in either script. -/
theorem slug_reapplication_differs :
    Gemini.slugify (Gemini.slugify Inputs.longTail)
      ≠ Gemini.slugify Inputs.longTail ∧
    OpenAI.slugify (OpenAI.slugify Inputs.longTail)
      ≠ OpenAI.slugify Inputs.longTail := by
  constructor <;> decide

/-- C6 (amended): `slugify` is idempotent on every instruction whose slug
does not end in a hyphen (the only way re-application can change the slug
is by stripping trailing hyphens left by truncation), in both scripts. -/
theorem slug_idempotent_unless_trailing_hyphen (s : String)
    (hg : (Gemini.slugify s).data.getLast? ≠ some '-')
    (ho : (OpenAI.slugify s).data.getLast? ≠ some '-') :
    Gemini.slugify (Gemini.slugify s) = Gemini.slugify s ∧
    OpenAI.slugify (OpenAI.slugify s) = OpenAI.slugify s := by
  refine ⟨gemini_slug_idem s hg, ?_⟩
  rw [show OpenAI.slugify s = Gemini.slugify s from slugify_agree s 60] at ho ⊢
  rw [show OpenAI.slugify (Gemini.slugify s) = Gemini.slugify (Gemini.slugify s)
    from slugify_agree (Gemini.slugify s) 60]
  exact gemini_slug_idem s ho

/-- C6 witness: idempotence at a concrete instruction whose slug
(`"hello-world"`) has no trailing hyphen. -/
theorem slug_idempotent_witness :
    Gemini.slugify (Gemini.slugify "Hello, World!")
      = Gemini.slugify "Hello, World!" ∧
    OpenAI.slugify (OpenAI.slugify "Hello, World!")
      = OpenAI.slugify "Hello, World!" :=
  slug_idempotent_unless_trailing_hyphen "Hello, World!" (by decide) (by decide)

/-- C8 counterexample: an explicitly supplied absolute filename is not
interpreted relative to the output directory — `pathlib`'s `/` lets it
replace the base entirely, in both scripts. -/
theorem absolute_output_escapes_dir :
    Gemini.resolveOutputPath "OUT" (some "/tmp/x.md") "topic"
        ⟨2025, 1, 1, 0, 0, 0⟩ = "/tmp/x.md" ∧
    OpenAI.resolveOutputPath "OUT" (some "/tmp/x.md") "topic"
        ⟨2025, 1, 1, 0, 0, 0⟩ = "/tmp/x.md" ∧
    "/tmp/x.md" ≠ "OUT" ++ "/" ++ "/tmp/x.md" := by
  refine ⟨?_, ?_, ?_⟩ <;> decide

/-- C8 (amended): an explicitly supplied non-empty relative filename (one
not starting with `/`) is used verbatim — no sanitization, no extension
enforcement — relative to the per-vendor output directory, in both
scripts. -/
theorem explicit_relative_output_verbatim (output_dir o instruction : String)
    (now : PyTime.PyDateTime) (h1 : o ≠ "") (h2 : o.data.head? ≠ some '/') :
    Gemini.resolveOutputPath output_dir (some o) instruction now
      = output_dir ++ "/" ++ o ∧
    OpenAI.resolveOutputPath output_dir (some o) instruction now
      = output_dir ++ "/" ++ o := by
  constructor <;>
    simp [Gemini.resolveOutputPath, OpenAI.resolveOutputPath,
      PyPath.pathJoin, h1, h2]

/-- C8 witness: the amended statement at a concrete relative filename. -/
theorem explicit_relative_output_verbatim_witness :
    Gemini.resolveOutputPath "OUT" (some "r.md") "topic" ⟨2025, 1, 1, 0, 0, 0⟩
      = "OUT" ++ "/" ++ "r.md" ∧
    OpenAI.resolveOutputPath "OUT" (some "r.md") "topic" ⟨2025, 1, 1, 0, 0, 0⟩
      = "OUT" ++ "/" ++ "r.md" :=
  explicit_relative_output_verbatim "OUT" "r.md" "topic" ⟨2025, 1, 1, 0, 0, 0⟩
    (by decide) (by decide)

set_option maxRecDepth 8000 in
/-- C9: with no explicit output name, the generated filename is
`{timestamp}_{slug}.md` with the timestamp formatted `YYYYMMDD_HHMMSS`;
at clock 2025-03-01 10:00:00 the example instruction yields exactly
`20250301_100000_impact-of-tariffs-on-semiconductor-supply-chains.md`,
in both scripts. -/
theorem default_filename_rule :
    (∀ (instruction : String) (now : PyTime.PyDateTime),
      Gemini.defaultFileName instruction now
        = PyTime.strftimeYmdHMS now ++ "_" ++ Gemini.slugify instruction
            ++ ".md") ∧
    (∀ (output_dir instruction : String) (now : PyTime.PyDateTime),
      Gemini.resolveOutputPath output_dir none instruction now
        = PyPath.pathJoin output_dir (Gemini.defaultFileName instruction now)) ∧
    Gemini.defaultFileName "Impact of tariffs on semiconductor supply chains"
        ⟨2025, 3, 1, 10, 0, 0⟩
      = "20250301_100000_impact-of-tariffs-on-semiconductor-supply-chains.md" ∧
    (∀ (instruction : String) (now : PyTime.PyDateTime),
      OpenAI.defaultFileName instruction now
        = PyTime.strftimeYmdHMS now ++ "_" ++ OpenAI.slugify instruction
            ++ ".md") ∧
    (∀ (output_dir instruction : String) (now : PyTime.PyDateTime),
      OpenAI.resolveOutputPath output_dir none instruction now
        = PyPath.pathJoin output_dir (OpenAI.defaultFileName instruction now)) ∧
    OpenAI.defaultFileName "Impact of tariffs on semiconductor supply chains"
        ⟨2025, 3, 1, 10, 0, 0⟩
      = "20250301_100000_impact-of-tariffs-on-semiconductor-supply-chains.md" :=
  ⟨fun _ _ => rfl, fun _ _ _ => rfl, by decide,
   fun _ _ => rfl, fun _ _ _ => rfl, by decide⟩

/-- C10: the two scripts implement extensionally equal slug functions, and
resolve default output filenames by the same timestamp-plus-slug rule (the
fixed output directory being the only difference, here a parameter). -/
theorem vendor_variants_agree :
    (∀ (text : String) (max_len : Nat),
      Gemini.slugify text max_len = OpenAI.slugify text max_len) ∧
    (∀ (instruction : String) (now : PyTime.PyDateTime),
      Gemini.defaultFileName instruction now
        = OpenAI.defaultFileName instruction now) ∧
    (∀ (output_dir instruction : String) (now : PyTime.PyDateTime),
      Gemini.resolveOutputPath output_dir none instruction now
        = OpenAI.resolveOutputPath output_dir none instruction now) :=
  ⟨fun _ _ => rfl, fun _ _ => rfl, fun _ _ _ => rfl⟩
